import Mathlib

/-!
Verification of the BizTime generic data-access layer and its invoice routes.

This file is a shallow embedding of:
  - src/dbFunctions.js : dbSelectAll, dbSelect, dbInsert, dbUpdate, dbDelete
  - src/routes/invoices.js : the GET /invoices/:id and PUT /invoices/:id handlers

Modelling conventions:
  - JavaScript values are the inductive type JsVal; objects are ordered
    association lists, mirroring JS property-insertion order.
  - The database connection (db.query) is a parameter of type Store: it maps a
    Query (the SQL text plus the optional positional-parameter array) to either
    a raised error (Except.error) or a row list (Except.ok), exactly the two
    outcomes the source's try/catch distinguishes.
  - Each dbXxx function returns Except JsVal JsVal: Except.ok models the
    promise resolving with the envelope object, Except.error would model a
    rejected promise / uncaught throw.  Every resolve(...) in the source is
    transcribed as Except.ok of the object literal it resolves with.
  - dbUpdate's push onto the caller's updateData.argumentsValues array is a
    visible mutation of the caller's object; the embedding returns the
    post-call updateData alongside the promise outcome (DbUpdateResult).
-/

/-- JavaScript runtime values, as far as this program manipulates them. -/
inductive JsVal : Type where
  | str : String → JsVal
  | num : Int → JsVal
  | bool : Bool → JsVal
  | null : JsVal
  | undefined : JsVal
  | arr : List JsVal → JsVal
  | obj : List (String × JsVal) → JsVal
deriving Repr, Inhabited

/-- Property read `v.k`: the first binding of `k` in an object, none otherwise
(JS would give `undefined`). -/
def getField : JsVal → String → Option JsVal
  | .obj l, k => (l.find? (fun p => p.1 == k)).map (fun p => p.2)
  | _, _ => none

/-- Property read defaulting to `undefined`, as a JS member expression does. -/
def getFieldD (v : JsVal) (k : String) : JsVal :=
  (getField v k).getD .undefined

/-- JS truthiness, restricted to the values of the model (no NaN). -/
def truthy : JsVal → Bool
  | .bool b => b
  | .null => false
  | .undefined => false
  | .str s => s != ""
  | .num n => n != 0
  | .arr _ => true
  | .obj _ => true

/-- The JS strict comparison `v === lit` against a string literal: strings
compare by contents, any other value compares unequal. -/
def jsEqStr : JsVal → String → Bool
  | .str a, b => a == b
  | _, _ => false

/-- `delete o.k` : removes the binding of `k`; a no-op on non-objects. -/
def deleteField : JsVal → String → JsVal
  | .obj l, k => .obj (l.filter (fun p => p.1 != k))
  | v, _ => v

/-- Assignment `o[k] = v` on an association list: overwrite in place when the
key exists (JS keeps the original property position), append otherwise. -/
def setFieldList : List (String × JsVal) → String → JsVal → List (String × JsVal)
  | [], k, v => [(k, v)]
  | (k', v') :: rest, k, v =>
      if k' == k then (k, v) :: rest else (k', v') :: setFieldList rest k v

/-- Assignment `o[k] = v`; a no-op on non-objects. -/
def setField : JsVal → String → JsVal → JsVal
  | .obj l, k, v => .obj (setFieldList l k v)
  | v, _, _ => v

/-- One call to db.query: the SQL text and the optional positional-parameter
array (dbSelectAll passes no array; the other four operations do). -/
structure Query where
  text : String
  values : Option (List JsVal)
deriving Repr

/-- The connection handle (db.js exports a single shared client): a response
for every statement — either a raised error (the catch path) or the result's
row list.  Each row is a JsVal (in practice a .obj record). -/
def Store : Type := Query → Except JsVal (List JsVal)

/-! ## dbSelectAll (src/dbFunctions.js lines 7-60) -/

/-- The SQL text dbSelectAll interpolates (template literal, whitespace kept). -/
def dbSelectAllText (selectFields table : String) : String :=
  "\n                SELECT " ++ selectFields ++ " \n                FROM "
    ++ table ++ "  \n            "

/-- The db.query call dbSelectAll issues (no parameter array). -/
def dbSelectAllQuery (selectFields table : String) : Query :=
  { text := dbSelectAllText selectFields table, values := none }

/-- dbSelectAll: SELECT of every row; resolves with
\x7bsuccess, sqlReturn, error: \x7bmessage\x7d\x7d on both paths. -/
def dbSelectAll (selectFields table : String) (store : Store) :
    Except JsVal JsVal :=
  match store (dbSelectAllQuery selectFields table) with
  | .ok rows =>
      .ok (.obj [("success", .bool true),
                 ("sqlReturn", .arr rows),
                 ("error", .obj [("message", .str "")])])
  | .error err =>
      .ok (.obj [("success", .bool false),
                 ("sqlReturn", .str ""),
                 ("error", .obj [("message", err)])])

/-! ## dbSelect (src/dbFunctions.js lines 63-147) -/

/-- The selectData argument of dbSelect. -/
structure SelectData where
  criteria : String
  criteriaValues : List JsVal
  selectFields : String
deriving Repr

/-- The SQL text dbSelect interpolates. -/
def dbSelectText (selectData : SelectData) (table : String) : String :=
  "\n                SELECT " ++ selectData.selectFields ++ " \n                FROM "
    ++ table ++ " \n                WHERE " ++ selectData.criteria
    ++ " \n            "

/-- The db.query call dbSelect issues. -/
def dbSelectQuery (selectData : SelectData) (table : String) : Query :=
  { text := dbSelectText selectData table, values := some selectData.criteriaValues }

/-- dbSelect: rows matching the criteria, with cardinality-dependent shaping of
sqlReturn (one row: the record itself; several: the row array; zero: failure
with message "not found"). -/
def dbSelect (selectData : SelectData) (table : String) (store : Store) :
    Except JsVal JsVal :=
  match store (dbSelectQuery selectData table) with
  | .ok rows =>
      if rows.length > 0 then
        if rows.length == 1 then
          .ok (.obj [("success", .bool true),
                     ("sqlReturn", rows.headD .undefined),
                     ("error", .obj [("message", .str "")])])
        else
          .ok (.obj [("success", .bool true),
                     ("sqlReturn", .arr rows),
                     ("error", .obj [("message", .str "")])])
      else
        .ok (.obj [("success", .bool false),
                   ("sqlReturn", .str ""),
                   ("error", .obj [("message", .str "not found")])])
  | .error err =>
      .ok (.obj [("success", .bool false),
                 ("sqlReturn", .str ""),
                 ("error", .obj [("message", err)])])

/-! ## dbInsert (src/dbFunctions.js lines 150-221) -/

/-- The insertData argument of dbInsert (two strings and a value array). -/
structure InsertData where
  argumentsNbr : String
  argumentsValues : List JsVal
  argumentsName : String
deriving Repr

/-- The SQL text dbInsert interpolates. -/
def dbInsertText (insertData : InsertData) (table returnFields : String) : String :=
  "\n                INSERT INTO " ++ table ++ " (" ++ insertData.argumentsName
    ++ ")  \n                VALUES (" ++ insertData.argumentsNbr
    ++ ") \n                RETURNING " ++ returnFields ++ " \n            "

/-- The db.query call dbInsert issues. -/
def dbInsertQuery (insertData : InsertData) (table returnFields : String) : Query :=
  { text := dbInsertText insertData table returnFields
    values := some insertData.argumentsValues }

/-- dbInsert: parameterized INSERT with RETURNING; resolves with the first
returned row on success, and on error with an envelope whose payload key is
insertReturn (the source uses that name only on this path). -/
def dbInsert (insertData : InsertData) (table returnFields : String)
    (store : Store) : Except JsVal JsVal :=
  match store (dbInsertQuery insertData table returnFields) with
  | .ok rows =>
      .ok (.obj [("success", .bool true),
                 ("sqlReturn", rows.headD .undefined),
                 ("error", .obj [("message", .str "")])])
  | .error err =>
      .ok (.obj [("success", .bool false),
                 ("insertReturn", .str ""),
                 ("error", .obj [("message", err)])])

/-! ## dbUpdate (src/dbFunctions.js lines 224-309) -/

/-- The whereCriteria argument of dbUpdate: primary-key column and value. -/
structure WhereCriteria where
  pk : String
  value : JsVal
deriving Repr

/-- The updateData argument of dbUpdate: three aligned arrays. -/
structure UpdateData where
  argumentsNbr : List String
  argumentsValues : List JsVal
  argumentsName : List String
deriving Repr

/-- The source's for-of loop over updateData.argumentsName, accumulating
setClause and returningClause with a shared delimiter that becomes ", " after
the first field; argumentsNbr is consumed positionally (an index past its end
interpolates as "undefined", as JS renders an out-of-range element). -/
def updateClausesLoop :
    List String → List String → String → String → String → String × String
  | [], _, setClause, returningClause, _ => (setClause, returningClause)
  | field :: rest, nbrs, setClause, returningClause, delim =>
      updateClausesLoop rest nbrs.tail
        (setClause ++ delim ++ field ++ " = " ++ nbrs.headD "undefined")
        (returningClause ++ delim ++ field)
        ", "

/-- dbUpdate's setClause local. -/
def dbUpdateSetClause (whereCriteria : WhereCriteria) (updateData : UpdateData) :
    String :=
  (updateClausesLoop updateData.argumentsName updateData.argumentsNbr
    "" (whereCriteria.pk ++ ", ") "").1

/-- dbUpdate's returningClause local (seeded with "pk, " before the loop). -/
def dbUpdateReturningClause (whereCriteria : WhereCriteria)
    (updateData : UpdateData) : String :=
  (updateClausesLoop updateData.argumentsName updateData.argumentsNbr
    "" (whereCriteria.pk ++ ", ") "").2

/-- dbUpdate's whereClause local: the pk column equated to the placeholder
numbered one past the length of argumentsNbr. -/
def dbUpdateWhereClause (whereCriteria : WhereCriteria)
    (updateData : UpdateData) : String :=
  whereCriteria.pk ++ " = $" ++ toString (updateData.argumentsNbr.length + 1)

/-- The bound-value array dbUpdate passes to db.query: the state of
updateData.argumentsValues after the push of whereCriteria.value. -/
def dbUpdateBoundValues (whereCriteria : WhereCriteria)
    (updateData : UpdateData) : List JsVal :=
  updateData.argumentsValues ++ [whereCriteria.value]

/-- The SQL text dbUpdate interpolates. -/
def dbUpdateText (whereCriteria : WhereCriteria) (updateData : UpdateData)
    (table : String) : String :=
  "\n                UPDATE " ++ table ++ " \n                SET "
    ++ dbUpdateSetClause whereCriteria updateData
    ++ " \n                WHERE " ++ dbUpdateWhereClause whereCriteria updateData
    ++ "\n                RETURNING "
    ++ dbUpdateReturningClause whereCriteria updateData ++ " \n            "

/-- The db.query call dbUpdate issues. -/
def dbUpdateQuery (whereCriteria : WhereCriteria) (updateData : UpdateData)
    (table : String) : Query :=
  { text := dbUpdateText whereCriteria updateData table
    values := some (dbUpdateBoundValues whereCriteria updateData) }

/-- What a dbUpdate call leaves behind: the promise outcome, and the caller's
updateData object as the call left it (argumentsValues.push(whereCriteria.value)
runs before the statement executes and mutates the caller's array). -/
structure DbUpdateResult where
  result : Except JsVal JsVal
  updateDataAfter : UpdateData

/-- dbUpdate: parameterized UPDATE on the primary key with RETURNING; one or
more rows resolves with the first row, zero rows resolves with failure
"not found", a store error resolves with that error. -/
def dbUpdate (whereCriteria : WhereCriteria) (updateData : UpdateData)
    (table : String) (store : Store) : DbUpdateResult :=
  { result :=
      match store (dbUpdateQuery whereCriteria updateData table) with
      | .ok rows =>
          if rows.length > 0 then
            .ok (.obj [("success", .bool true),
                       ("sqlReturn", rows.headD .undefined),
                       ("error", .obj [("message", .str "")])])
          else
            .ok (.obj [("success", .bool false),
                       ("sqlReturn", .obj []),
                       ("error", .obj [("message", .str "not found")])])
      | .error err =>
          .ok (.obj [("success", .bool false),
                     ("sqlReturn", .str ""),
                     ("error", .obj [("message", err)])])
    updateDataAfter :=
      { updateData with
          argumentsValues := dbUpdateBoundValues whereCriteria updateData } }

/-! ## dbDelete (src/dbFunctions.js lines 312-409) -/

/-- The deleteData argument of dbDelete. -/
structure DeleteData where
  criteria : String
  criteriaValues : List JsVal
  argumentsName : String
deriving Repr

/-- The SQL text dbDelete interpolates. -/
def dbDeleteText (deleteData : DeleteData) (table : String) : String :=
  "\n                DELETE FROM " ++ table ++ "  \n                WHERE "
    ++ deleteData.criteria ++ " \n                RETURNING "
    ++ deleteData.argumentsName ++ "\n            "

/-- The db.query call dbDelete issues. -/
def dbDeleteQuery (deleteData : DeleteData) (table : String) : Query :=
  { text := dbDeleteText deleteData table, values := some deleteData.criteriaValues }

/-- dbDelete: parameterized DELETE with RETURNING; one or more rows resolves
with status marker "deleted" and the deleted rows under the key deleted (that
key is absent on both failure paths). -/
def dbDelete (deleteData : DeleteData) (table : String) (store : Store) :
    Except JsVal JsVal :=
  match store (dbDeleteQuery deleteData table) with
  | .ok rows =>
      if rows.length > 0 then
        .ok (.obj [("success", .bool true),
                   ("message", .obj [("status", .str "deleted")]),
                   ("deleted", .arr rows),
                   ("error", .obj [("message", .str "")])])
      else
        .ok (.obj [("success", .bool false),
                   ("message", .obj []),
                   ("error", .obj [("message", .str "not found")])])
  | .error err =>
      .ok (.obj [("success", .bool false),
                 ("message", .obj []),
                 ("error", .obj [("message", err)])])

/-! ## Route handlers (src/routes/invoices.js)

The two validators the handlers call, checkNumbers and prepareUpdateData, live
in helperFx.js, which is not among the repository files here; the handlers are
therefore parameterized over those calls' results, whose shape is taken from
how the handlers read them (numberIsValid / validatedNumber / message, and
success / error / updateData). -/

/-- What checkNumbers(req.params.id) hands back, as the routes read it. -/
structure CheckNumbersResult where
  numberIsValid : Bool
  validatedNumber : JsVal
  message : String
deriving Repr

/-- What prepareUpdateData(optionalKeys, req.body) hands back, as the PUT
route reads it. -/
structure PrepareUpdateDataResult where
  success : Bool
  error : JsVal
  updateData : UpdateData
deriving Repr

/-- A route handler's observable outcome: res.json(body) (HTTP 200),
next(error) with the error's message and status, or an exception escaping the
async handler (which Express 4 does not catch, so no response is produced). -/
inductive RouteOutcome : Type where
  | json : JsVal → RouteOutcome
  | nextErr : JsVal → Nat → RouteOutcome
  | thrown : JsVal → RouteOutcome
deriving Repr

/-- GET /invoices/:id (src/routes/invoices.js lines 34-91).  The source
mutates its selectData object between the two dbSelect calls; the embedding
builds the second object with exactly the mutated field values.  The company
lookup's outcome is only consulted to optionally rewrite the invoice record:
on company-lookup failure the handler still answers res.json with the
unmodified invoice record. -/
def getInvoiceHandler (idParam : String) (nbrTest : CheckNumbersResult)
    (store : Store) : RouteOutcome :=
  if nbrTest.numberIsValid then
    let idIn := nbrTest.validatedNumber
    let selectData : SelectData :=
      { criteria := "id = $1"
        criteriaValues := [idIn]
        selectFields := "id, amt, paid, add_date, paid_date, comp_code" }
    match dbSelect selectData "invoices" store with
    | .error e => .thrown e
    | .ok resultsInvoice =>
      if truthy (getFieldD resultsInvoice "success") then
        let selectData2 : SelectData :=
          { criteria := "code = $1"
            criteriaValues :=
              [getFieldD (getFieldD resultsInvoice "sqlReturn") "comp_code"]
            selectFields := "code, name, description" }
        match dbSelect selectData2 "companies" store with
        | .error e => .thrown e
        | .ok resultsCompany =>
          if truthy (getFieldD resultsCompany "success") then
            .json (.obj [("invoice",
              setField
                (deleteField (getFieldD resultsInvoice "sqlReturn") "comp_code")
                "company" (getFieldD resultsCompany "sqlReturn"))])
          else
            .json (.obj [("invoice", getFieldD resultsInvoice "sqlReturn")])
      else
        if jsEqStr (getFieldD (getFieldD resultsInvoice "error") "message")
            "not found" then
          .nextErr (.str ("Invoice \x27" ++ idParam ++ "\x27 was not found.")) 404
        else
          .nextErr (getFieldD (getFieldD resultsInvoice "error") "message") 400
  else
    .nextErr (.str ("Invoice id " ++ nbrTest.message)) 400

/-- PUT /invoices/:id (src/routes/invoices.js lines 130-183).  In the source's
"not found during update" branch the code constructs `const errorUpdate` but
then executes `errorSelect.status = 404; return next(errorSelect)`: the
identifier errorSelect is not declared in any enclosing scope, so evaluating
it raises a ReferenceError and next is never called; the embedding renders
that branch as RouteOutcome.thrown of that ReferenceError. -/
def putInvoiceHandler (idParam : String) (verifyNumber : CheckNumbersResult)
    (resultsPreparation : PrepareUpdateDataResult) (store : Store) :
    RouteOutcome :=
  if verifyNumber.numberIsValid == false then
    .nextErr (.str ("Invoice id " ++ verifyNumber.message)) 400
  else if resultsPreparation.success == false then
    .nextErr resultsPreparation.error 404
  else
    let criteria : WhereCriteria :=
      { pk := "id", value := verifyNumber.validatedNumber }
    match (dbUpdate criteria resultsPreparation.updateData "invoices" store).result with
    | .error e => .thrown e
    | .ok resultsUpdate =>
      if truthy (getFieldD resultsUpdate "success") then
        .json (.obj [("invoice", getFieldD resultsUpdate "sqlReturn")])
      else
        if jsEqStr (getFieldD (getFieldD resultsUpdate "error") "message")
            "not found" then
          .thrown (.str "ReferenceError: errorSelect is not defined")
        else
          .nextErr (getFieldD (getFieldD resultsUpdate "error") "message") 400

/-! ## Helper notions used by the theorems -/

/-- Comma-space join of a column list, the shape the spec describes for a
RETURNING clause listing columns. -/
def commaJoin : List String → String
  | [] => ""
  | [field] => field
  | field :: rest => field ++ ", " ++ commaJoin rest

/-- The error-field contract of an envelope-producing call: the promise
resolves with an object whose error field is an object carrying exactly a
message (in particular no kind field), and on a success envelope the message
is the empty string. -/
def errorFieldContract (r : Except JsVal JsVal) : Prop :=
  ∃ env m, r = .ok env ∧
    getField env "error" = some (.obj [("message", m)]) ∧
    getField (.obj [("message", m)]) "kind" = none ∧
    (getField env "success" = some (.bool true) → m = .str "")

/-- Unfolding equation of commaJoin on a list of two or more fields. -/
theorem commaJoin_cons_cons (field g : String) (gs : List String) :
    commaJoin (field :: g :: gs) = field ++ ", " ++ commaJoin (g :: gs) := rfl

/-- The returningClause accumulator of dbUpdate's loop: over a nonempty field
list it is the seed, then the pending delimiter, then the comma-joined
fields. -/
theorem updateClausesLoop_returning (names nbrs : List String)
    (setClause returningClause delim : String) (hne : names ≠ []) :
    (updateClausesLoop names nbrs setClause returningClause delim).2 =
      returningClause ++ delim ++ commaJoin names := by
  induction names generalizing nbrs setClause returningClause delim with
  | nil => exact absurd rfl hne
  | cons field rest ih =>
    cases rest with
    | nil =>
      simp [updateClausesLoop, commaJoin, String.append_assoc]
    | cons g gs =>
      rw [updateClausesLoop, ih _ _ _ _ (by simp), commaJoin_cons_cons]
      simp [String.append_assoc]

/-! ## Claims -/

/-- C1: dbSelect's result is shaped by row cardinality: zero matching rows
resolve to a failure whose error message is "not found"; exactly one row
resolves to success whose sqlReturn is that single record (not a one-element
array); two or more rows resolve to success whose sqlReturn is the array of
exactly those rows, in store order. -/
theorem dbSelect_cardinality_shaping (selectData : SelectData) (table : String)
    (store : Store) (rows : List JsVal)
    (h : store (dbSelectQuery selectData table) = .ok rows) :
    (rows = [] →
      dbSelect selectData table store =
        .ok (.obj [("success", .bool false),
                   ("sqlReturn", .str ""),
                   ("error", .obj [("message", .str "not found")])])) ∧
    (∀ r, rows = [r] →
      dbSelect selectData table store =
        .ok (.obj [("success", .bool true),
                   ("sqlReturn", r),
                   ("error", .obj [("message", .str "")])])) ∧
    (2 ≤ rows.length →
      dbSelect selectData table store =
        .ok (.obj [("success", .bool true),
                   ("sqlReturn", .arr rows),
                   ("error", .obj [("message", .str "")])])) := by
  refine ⟨?_, ?_, ?_⟩
  · rintro rfl
    simp [dbSelect, h]
  · rintro r rfl
    simp [dbSelect, h]
  · intro h2
    have h0 : rows.length > 0 := by omega
    have h1 : (rows.length == 1) = false := by
      rw [beq_eq_false_iff_ne]
      omega
    simp [dbSelect, h, h0, h1]

/-- C1 witness: a store holding exactly one matching row; dbSelect resolves
with that record itself as sqlReturn. -/
theorem dbSelect_cardinality_shaping_witness :
    dbSelect ⟨"id = $1", [.num 1], "id, amt"⟩ "invoices"
      (fun _ => .ok [.obj [("id", .num 1), ("amt", .num 100)]]) =
      .ok (.obj [("success", .bool true),
                 ("sqlReturn", .obj [("id", .num 1), ("amt", .num 100)]),
                 ("error", .obj [("message", .str "")])]) :=
  (dbSelect_cardinality_shaping ⟨"id = $1", [.num 1], "id, amt"⟩ "invoices"
    (fun _ => .ok [.obj [("id", .num 1), ("amt", .num 100)]])
    [.obj [("id", .num 1), ("amt", .num 100)]] rfl).2.1
    (.obj [("id", .num 1), ("amt", .num 100)]) rfl

/-- C2: with n columns to update, dbUpdate builds the WHERE clause on the
primary key with placeholder number n+1, binds the n update values in order
followed by the primary-key value as the final element, and the RETURNING
clause names the primary key followed by every updated column. -/
theorem dbUpdate_sql_construction (whereCriteria : WhereCriteria)
    (updateData : UpdateData) (n : Nat)
    (hname : updateData.argumentsName.length = n)
    (hnbr : updateData.argumentsNbr.length = n)
    (hval : updateData.argumentsValues.length = n)
    (hpos : 0 < n) :
    dbUpdateWhereClause whereCriteria updateData =
      whereCriteria.pk ++ " = $" ++ toString (n + 1) ∧
    dbUpdateBoundValues whereCriteria updateData =
      updateData.argumentsValues ++ [whereCriteria.value] ∧
    (dbUpdateBoundValues whereCriteria updateData).length = n + 1 ∧
    (dbUpdateBoundValues whereCriteria updateData).getLast? =
      some whereCriteria.value ∧
    dbUpdateReturningClause whereCriteria updateData =
      whereCriteria.pk ++ ", " ++ commaJoin updateData.argumentsName := by
  refine ⟨?_, rfl, ?_, ?_, ?_⟩
  · rw [dbUpdateWhereClause, hnbr]
  · simp [dbUpdateBoundValues, hval]
  · exact List.getLast?_concat _
  · have hne : updateData.argumentsName ≠ [] := by
      intro hcontra
      rw [hcontra] at hname
      simp at hname
      omega
    rw [dbUpdateReturningClause, updateClausesLoop_returning _ _ _ _ _ hne]
    simp [String.append_assoc]

/-- C2 witness: two updated columns (amt, paid); the WHERE placeholder is $3,
the bound array ends with the primary-key value, and RETURNING is
"id, amt, paid". -/
theorem dbUpdate_sql_construction_witness :
    dbUpdateWhereClause ⟨"id", .num 1⟩
        ⟨["$1", "$2"], [.num 500, .bool true], ["amt", "paid"]⟩ =
      "id" ++ " = $" ++ toString (2 + 1) ∧
    dbUpdateBoundValues ⟨"id", .num 1⟩
        ⟨["$1", "$2"], [.num 500, .bool true], ["amt", "paid"]⟩ =
      [.num 500, .bool true] ++ [.num 1] ∧
    (dbUpdateBoundValues ⟨"id", .num 1⟩
        ⟨["$1", "$2"], [.num 500, .bool true], ["amt", "paid"]⟩).length = 2 + 1 ∧
    (dbUpdateBoundValues ⟨"id", .num 1⟩
        ⟨["$1", "$2"], [.num 500, .bool true], ["amt", "paid"]⟩).getLast? =
      some (.num 1) ∧
    dbUpdateReturningClause ⟨"id", .num 1⟩
        ⟨["$1", "$2"], [.num 500, .bool true], ["amt", "paid"]⟩ =
      "id" ++ ", " ++ commaJoin ["amt", "paid"] :=
  dbUpdate_sql_construction ⟨"id", .num 1⟩
    ⟨["$1", "$2"], [.num 500, .bool true], ["amt", "paid"]⟩ 2
    rfl rfl rfl (by decide)

/-- C9: dbUpdate appends the primary-key value to the caller's
updateData.argumentsValues before executing the statement: after the call the
caller's array is one element longer, and a second call on the already-mutated
updateData binds a different, longer value array than the first call did. -/
theorem dbUpdate_mutates_caller_updateData (whereCriteria : WhereCriteria)
    (updateData : UpdateData) (table : String) (store : Store) :
    (dbUpdate whereCriteria updateData table store).updateDataAfter.argumentsValues =
      updateData.argumentsValues ++ [whereCriteria.value] ∧
    (dbUpdate whereCriteria updateData table store).updateDataAfter.argumentsValues.length =
      updateData.argumentsValues.length + 1 ∧
    dbUpdateBoundValues whereCriteria
        (dbUpdate whereCriteria updateData table store).updateDataAfter =
      updateData.argumentsValues ++ [whereCriteria.value, whereCriteria.value] ∧
    dbUpdateBoundValues whereCriteria
        (dbUpdate whereCriteria updateData table store).updateDataAfter ≠
      dbUpdateBoundValues whereCriteria updateData := by
  refine ⟨rfl, by simp [dbUpdate, dbUpdateBoundValues], ?_, ?_⟩
  · show (updateData.argumentsValues ++ [whereCriteria.value]) ++ [whereCriteria.value] = _
    simp
  · intro hcontra
    have hlen := congrArg List.length hcontra
    have hshape :
        ((updateData.argumentsValues ++ [whereCriteria.value]) ++ [whereCriteria.value]).length =
          (updateData.argumentsValues ++ [whereCriteria.value]).length := hlen
    simp at hshape

/-- C3: on criteria matching zero rows, dbSelect, dbUpdate and dbDelete each
resolve with a failure envelope whose error message is "not found", never with
a success envelope. -/
theorem zeroRows_report_notFound (selectData : SelectData)
    (whereCriteria : WhereCriteria) (updateData : UpdateData)
    (deleteData : DeleteData) (table : String) (store : Store)
    (hstore : ∀ q, store q = .ok []) :
    dbSelect selectData table store =
      .ok (.obj [("success", .bool false),
                 ("sqlReturn", .str ""),
                 ("error", .obj [("message", .str "not found")])]) ∧
    (dbUpdate whereCriteria updateData table store).result =
      .ok (.obj [("success", .bool false),
                 ("sqlReturn", .obj []),
                 ("error", .obj [("message", .str "not found")])]) ∧
    dbDelete deleteData table store =
      .ok (.obj [("success", .bool false),
                 ("message", .obj []),
                 ("error", .obj [("message", .str "not found")])]) := by
  refine ⟨?_, ?_, ?_⟩ <;> simp [dbSelect, dbUpdate, dbDelete, hstore]

/-- C3 witness: a store with no matching rows; all three operations report
"not found". -/
theorem zeroRows_report_notFound_witness :
    dbSelect ⟨"id = $1", [.num 999], "id, amt"⟩ "invoices" (fun _ => .ok []) =
      .ok (.obj [("success", .bool false),
                 ("sqlReturn", .str ""),
                 ("error", .obj [("message", .str "not found")])]) ∧
    (dbUpdate ⟨"id", .num 999⟩ ⟨["$1"], [.num 500], ["amt"]⟩ "invoices"
        (fun _ => .ok [])).result =
      .ok (.obj [("success", .bool false),
                 ("sqlReturn", .obj []),
                 ("error", .obj [("message", .str "not found")])]) ∧
    dbDelete ⟨"id = $1", [.num 999], "id, amt"⟩ "invoices" (fun _ => .ok []) =
      .ok (.obj [("success", .bool false),
                 ("message", .obj []),
                 ("error", .obj [("message", .str "not found")])]) :=
  zeroRows_report_notFound ⟨"id = $1", [.num 999], "id, amt"⟩ ⟨"id", .num 999⟩
    ⟨["$1"], [.num 500], ["amt"]⟩ ⟨"id = $1", [.num 999], "id, amt"⟩ "invoices"
    (fun _ => .ok []) (fun _ => rfl)

/-- C4: whatever the input and whatever the store's response (row lists or
raised errors), each of the five data-access operations resolves its promise
with an envelope — no branch rejects or lets an exception escape. -/
theorem dbFunctions_always_resolve (selectFields table : String)
    (selectData : SelectData) (insertData : InsertData) (returnFields : String)
    (whereCriteria : WhereCriteria) (updateData : UpdateData)
    (deleteData : DeleteData) (store : Store) :
    (∃ env, dbSelectAll selectFields table store = .ok env) ∧
    (∃ env, dbSelect selectData table store = .ok env) ∧
    (∃ env, dbInsert insertData table returnFields store = .ok env) ∧
    (∃ env, (dbUpdate whereCriteria updateData table store).result = .ok env) ∧
    (∃ env, dbDelete deleteData table store = .ok env) := by
  refine ⟨?_, ?_, ?_, ?_, ?_⟩
  · unfold dbSelectAll
    rcases store (dbSelectAllQuery selectFields table) with err | rows
    · exact ⟨_, rfl⟩
    · exact ⟨_, rfl⟩
  · unfold dbSelect
    rcases store (dbSelectQuery selectData table) with err | rows
    · exact ⟨_, rfl⟩
    · dsimp only
      split
      · split
        · exact ⟨_, rfl⟩
        · exact ⟨_, rfl⟩
      · exact ⟨_, rfl⟩
  · unfold dbInsert
    rcases store (dbInsertQuery insertData table returnFields) with err | rows
    · exact ⟨_, rfl⟩
    · exact ⟨_, rfl⟩
  · unfold dbUpdate
    dsimp only
    rcases store (dbUpdateQuery whereCriteria updateData table) with err | rows
    · exact ⟨_, rfl⟩
    · dsimp only
      split
      · exact ⟨_, rfl⟩
      · exact ⟨_, rfl⟩
  · unfold dbDelete
    rcases store (dbDeleteQuery deleteData table) with err | rows
    · exact ⟨_, rfl⟩
    · dsimp only
      split
      · exact ⟨_, rfl⟩
      · exact ⟨_, rfl⟩

/-- C5: dbSelectAll resolves with success and the store's (possibly empty) row
array — an empty table is a success with an empty array — and fails only when
the store itself errors, in which case the envelope carries the store's
error. -/
theorem dbSelectAll_success_and_error (selectFields table : String)
    (store : Store) :
    (∀ rows, store (dbSelectAllQuery selectFields table) = .ok rows →
      dbSelectAll selectFields table store =
        .ok (.obj [("success", .bool true),
                   ("sqlReturn", .arr rows),
                   ("error", .obj [("message", .str "")])])) ∧
    (∀ err, store (dbSelectAllQuery selectFields table) = .error err →
      dbSelectAll selectFields table store =
        .ok (.obj [("success", .bool false),
                   ("sqlReturn", .str ""),
                   ("error", .obj [("message", err)])])) := by
  constructor
  · intro rows h
    simp [dbSelectAll, h]
  · intro err h
    simp [dbSelectAll, h]

/-- C5 witness: the spec's scenario — select-all of "id, comp_code" from
"invoices" on an empty table is a success with an empty array. -/
theorem dbSelectAll_success_and_error_witness :
    dbSelectAll "id, comp_code" "invoices" (fun _ => .ok []) =
      .ok (.obj [("success", .bool true),
                 ("sqlReturn", .arr []),
                 ("error", .obj [("message", .str "")])]) :=
  (dbSelectAll_success_and_error "id, comp_code" "invoices"
    (fun _ => .ok [])).1 [] rfl

/-- C7: when the DELETE's RETURNING yields one or more rows, dbDelete resolves
with a success envelope carrying the ordered array of exactly those deleted
records under the key deleted, and the fixed status marker "deleted". -/
theorem dbDelete_success_shape (deleteData : DeleteData) (table : String)
    (store : Store) (rows : List JsVal)
    (h : store (dbDeleteQuery deleteData table) = .ok rows)
    (hne : rows.length > 0) :
    dbDelete deleteData table store =
      .ok (.obj [("success", .bool true),
                 ("message", .obj [("status", .str "deleted")]),
                 ("deleted", .arr rows),
                 ("error", .obj [("message", .str "")])]) := by
  simp [dbDelete, h, hne]

/-- C7 witness: deleting the one matching invoice row yields the deleted-row
array and the "deleted" status marker. -/
theorem dbDelete_success_shape_witness :
    dbDelete ⟨"id = $1", [.num 1], "id, amt, paid, add_date, paid_date, comp_code"⟩
        "invoices" (fun _ => .ok [.obj [("id", .num 1), ("amt", .num 100)]]) =
      .ok (.obj [("success", .bool true),
                 ("message", .obj [("status", .str "deleted")]),
                 ("deleted", .arr [.obj [("id", .num 1), ("amt", .num 100)]]),
                 ("error", .obj [("message", .str "")])]) :=
  dbDelete_success_shape
    ⟨"id = $1", [.num 1], "id, amt, paid, add_date, paid_date, comp_code"⟩
    "invoices" (fun _ => .ok [.obj [("id", .num 1), ("amt", .num 100)]])
    [.obj [("id", .num 1), ("amt", .num 100)]] rfl (by decide)

/-- C6 counterexample: the error field is not present only on failure — a
successful dbSelectAll still carries error with an empty message — and a
failing envelope's error carries only a message, no kind field. -/
theorem envelope_error_not_only_on_failure_cex :
    dbSelectAll "id, comp_code" "invoices" (fun _ => .ok []) =
      .ok (.obj [("success", .bool true),
                 ("sqlReturn", .arr []),
                 ("error", .obj [("message", .str "")])]) ∧
    getField (.obj [("success", .bool true),
                    ("sqlReturn", .arr []),
                    ("error", .obj [("message", .str "")])]) "success" =
      some (.bool true) ∧
    getField (.obj [("success", .bool true),
                    ("sqlReturn", .arr []),
                    ("error", .obj [("message", .str "")])]) "error" =
      some (.obj [("message", .str "")]) ∧
    dbSelect ⟨"id = $1", [.num 999], "id"⟩ "invoices" (fun _ => .ok []) =
      .ok (.obj [("success", .bool false),
                 ("sqlReturn", .str ""),
                 ("error", .obj [("message", .str "not found")])]) ∧
    getField (.obj [("message", .str "not found")]) "kind" = none :=
  ⟨rfl, rfl, rfl, rfl, rfl⟩

/-- C6 amended: every envelope any of the five operations resolves with —
success or failure — carries an error field holding an object with exactly a
message and no kind field, and on a success envelope that message is the
empty string. -/
theorem envelope_error_field_contract (selectFields table returnFields : String)
    (selectData : SelectData) (insertData : InsertData)
    (whereCriteria : WhereCriteria) (updateData : UpdateData)
    (deleteData : DeleteData) (store : Store) :
    errorFieldContract (dbSelectAll selectFields table store) ∧
    errorFieldContract (dbSelect selectData table store) ∧
    errorFieldContract (dbInsert insertData table returnFields store) ∧
    errorFieldContract ((dbUpdate whereCriteria updateData table store).result) ∧
    errorFieldContract (dbDelete deleteData table store) := by
  refine ⟨?_, ?_, ?_, ?_, ?_⟩
  · unfold errorFieldContract dbSelectAll
    rcases store (dbSelectAllQuery selectFields table) with err | rows
    · exact ⟨_, err, rfl, by simp [getField], by simp [getField],
        by intro hcontra; simp [getField] at hcontra⟩
    · exact ⟨_, .str "", rfl, by simp [getField], by simp [getField],
        fun _ => rfl⟩
  · unfold errorFieldContract dbSelect
    rcases store (dbSelectQuery selectData table) with err | rows
    · exact ⟨_, err, rfl, by simp [getField], by simp [getField],
        by intro hcontra; simp [getField] at hcontra⟩
    · dsimp only
      split
      · split
        · exact ⟨_, .str "", rfl, by simp [getField], by simp [getField],
            fun _ => rfl⟩
        · exact ⟨_, .str "", rfl, by simp [getField], by simp [getField],
            fun _ => rfl⟩
      · exact ⟨_, .str "not found", rfl, by simp [getField], by simp [getField],
          by intro hcontra; simp [getField] at hcontra⟩
  · unfold errorFieldContract dbInsert
    rcases store (dbInsertQuery insertData table returnFields) with err | rows
    · exact ⟨_, err, rfl, by simp [getField], by simp [getField],
        by intro hcontra; simp [getField] at hcontra⟩
    · exact ⟨_, .str "", rfl, by simp [getField], by simp [getField],
        fun _ => rfl⟩
  · unfold errorFieldContract dbUpdate
    dsimp only
    rcases store (dbUpdateQuery whereCriteria updateData table) with err | rows
    · exact ⟨_, err, rfl, by simp [getField], by simp [getField],
        by intro hcontra; simp [getField] at hcontra⟩
    · dsimp only
      split
      · exact ⟨_, .str "", rfl, by simp [getField], by simp [getField],
          fun _ => rfl⟩
      · exact ⟨_, .str "not found", rfl, by simp [getField], by simp [getField],
          by intro hcontra; simp [getField] at hcontra⟩
  · unfold errorFieldContract dbDelete
    rcases store (dbDeleteQuery deleteData table) with err | rows
    · exact ⟨_, err, rfl, by simp [getField], by simp [getField],
        by intro hcontra; simp [getField] at hcontra⟩
    · dsimp only
      split
      · exact ⟨_, .str "", rfl, by simp [getField], by simp [getField],
          fun _ => rfl⟩
      · exact ⟨_, .str "not found", rfl, by simp [getField], by simp [getField],
          by intro hcontra; simp [getField] at hcontra⟩

/-- C8: in the PUT /invoices/:id handler, the failure branch taken when
dbUpdate reports "not found" evaluates the undeclared identifier errorSelect:
a ReferenceError escapes the handler and no next(error) — in particular no
404 response — is produced on that branch. -/
theorem putInvoice_notFound_branch_throws (idParam : String)
    (verifyNumber : CheckNumbersResult)
    (resultsPreparation : PrepareUpdateDataResult) (store : Store)
    (hnum : verifyNumber.numberIsValid = true)
    (hprep : resultsPreparation.success = true)
    (hstore : store (dbUpdateQuery ⟨"id", verifyNumber.validatedNumber⟩
        resultsPreparation.updateData "invoices") = .ok []) :
    putInvoiceHandler idParam verifyNumber resultsPreparation store =
      .thrown (.str "ReferenceError: errorSelect is not defined") ∧
    ∀ msg status,
      putInvoiceHandler idParam verifyNumber resultsPreparation store ≠
        .nextErr msg status := by
  have hmain : putInvoiceHandler idParam verifyNumber resultsPreparation store =
      .thrown (.str "ReferenceError: errorSelect is not defined") := by
    simp [putInvoiceHandler, hnum, hprep, dbUpdate, hstore, getFieldD, getField,
      truthy, jsEqStr]
  exact ⟨hmain, fun msg status hcontra => by
    rw [hmain] at hcontra
    exact RouteOutcome.noConfusion hcontra⟩

/-- C8 witness: a concrete well-formed PUT whose update matches zero rows; the
handler ends in the thrown ReferenceError, not in a 404. -/
theorem putInvoice_notFound_branch_throws_witness :
    putInvoiceHandler "1" ⟨true, .num 1, ""⟩
        ⟨true, .undefined, ⟨["$1"], [.num 500], ["amt"]⟩⟩ (fun _ => .ok []) =
      .thrown (.str "ReferenceError: errorSelect is not defined") :=
  (putInvoice_notFound_branch_throws "1" ⟨true, .num 1, ""⟩
    ⟨true, .undefined, ⟨["$1"], [.num 500], ["amt"]⟩⟩ (fun _ => .ok [])
    rfl rfl rfl).1

/-- C10: in the GET /invoices/:id handler, when the invoice lookup succeeds
with one record but the company lookup then fails (zero rows or a store
error), the handler still answers res.json — HTTP 200 — with the invoice
record unchanged: comp_code still present, no company key; the failure is
swallowed. -/
theorem getInvoice_company_failure_swallowed (idParam : String)
    (nbrTest : CheckNumbersResult) (store : Store)
    (row : List (String × JsVal)) (compCode cenv : JsVal)
    (hnum : nbrTest.numberIsValid = true)
    (hinv : store (dbSelectQuery ⟨"id = $1", [nbrTest.validatedNumber],
        "id, amt, paid, add_date, paid_date, comp_code"⟩ "invoices") =
      .ok [.obj row])
    (hcode : getField (.obj row) "comp_code" = some compCode)
    (hcompany : getField (.obj row) "company" = none)
    (hcomp : dbSelect ⟨"code = $1", [compCode], "code, name, description"⟩
        "companies" store = .ok cenv)
    (hfail : getField cenv "success" = some (.bool false)) :
    getInvoiceHandler idParam nbrTest store =
      .json (.obj [("invoice", .obj row)]) ∧
    getField (.obj row) "comp_code" = some compCode ∧
    getField (.obj row) "company" = none := by
  refine ⟨?_, hcode, hcompany⟩
  have h1 : dbSelect ⟨"id = $1", [nbrTest.validatedNumber],
      "id, amt, paid, add_date, paid_date, comp_code"⟩ "invoices" store =
      .ok (.obj [("success", .bool true),
                 ("sqlReturn", .obj row),
                 ("error", .obj [("message", .str "")])]) := by
    simp [dbSelect, hinv]
  have e1 : getFieldD (.obj [("success", .bool true),
      ("sqlReturn", .obj row),
      ("error", .obj [("message", .str "")])]) "success" = .bool true := rfl
  have e2 : getFieldD (.obj [("success", .bool true),
      ("sqlReturn", .obj row),
      ("error", .obj [("message", .str "")])]) "sqlReturn" = .obj row := rfl
  have e3 : getFieldD (.obj row) "comp_code" = compCode := by
    unfold getFieldD
    rw [hcode]
    rfl
  have e4 : getFieldD cenv "success" = .bool false := by
    unfold getFieldD
    rw [hfail]
    rfl
  simp [getInvoiceHandler, hnum, h1, e1, e2, e3, hcomp, e4, truthy]

/-- C10 witness: invoice 1 exists with comp_code "apple" but no company row
matches; the handler answers 200 with the invoice record keeping comp_code
and without a company key. -/
theorem getInvoice_company_failure_swallowed_witness :
    getInvoiceHandler "1" ⟨true, .num 1, ""⟩
        (fun q => match q.values with
          | some [JsVal.num _] =>
              .ok [.obj [("id", .num 1), ("amt", .num 100), ("paid", .bool false),
                         ("add_date", .null), ("paid_date", .null),
                         ("comp_code", .str "apple")]]
          | _ => .ok []) =
      .json (.obj [("invoice",
        .obj [("id", .num 1), ("amt", .num 100), ("paid", .bool false),
              ("add_date", .null), ("paid_date", .null),
              ("comp_code", .str "apple")])]) ∧
    getField (.obj [("id", .num 1), ("amt", .num 100), ("paid", .bool false),
              ("add_date", .null), ("paid_date", .null),
              ("comp_code", .str "apple")]) "comp_code" = some (.str "apple") ∧
    getField (.obj [("id", .num 1), ("amt", .num 100), ("paid", .bool false),
              ("add_date", .null), ("paid_date", .null),
              ("comp_code", .str "apple")]) "company" = none :=
  getInvoice_company_failure_swallowed "1" ⟨true, .num 1, ""⟩
    (fun q => match q.values with
      | some [JsVal.num _] =>
          .ok [.obj [("id", .num 1), ("amt", .num 100), ("paid", .bool false),
                     ("add_date", .null), ("paid_date", .null),
                     ("comp_code", .str "apple")]]
      | _ => .ok [])
    [("id", .num 1), ("amt", .num 100), ("paid", .bool false),
     ("add_date", .null), ("paid_date", .null), ("comp_code", .str "apple")]
    (.str "apple")
    (.obj [("success", .bool false), ("sqlReturn", .str ""),
           ("error", .obj [("message", .str "not found")])])
    rfl rfl rfl rfl rfl rfl
